import Mathlib

/-!
Shallow embedding of the multiai-chat-platform backend chat pipeline:
`src/backend/src/core/enums.py`, `src/backend/src/repositories/chat_repository.py`
and the WebSocket endpoint of `src/backend/src/api/chat.py`.

External collaborators (the AI platform client, the database commit, the rate
limiter, the wall clock) are passed in as explicit parameters; everything else
follows the Python source line by line.
-/

namespace MultiAIChat

/-- The `AIModels` enum of `src/core/enums.py` (OPENAI is commented out there). -/
inductive AIModels
  | GROQ
  | GEMINI
deriving DecidableEq, Repr

/-- The string value of each enum member (`AIModels(str, Enum)`). -/
def AIModels.value : AIModels → String
  | .GROQ => "groq"
  | .GEMINI => "gemini"

/-- Every member of the `AIModels` enumeration, in declaration order. -/
def AIModels.all : List AIModels := [.GROQ, .GEMINI]

/-- The `PROVIDER_AVAILABILITY` dict of `src/core/enums.py`, as an association list. -/
def PROVIDER_AVAILABILITY : List (AIModels × Bool) :=
  [(.GROQ, true), (.GEMINI, false)]

/-- Python `table.get(key, False)`: dictionary lookup with a `False` default. -/
def dictGetFalse (table : List (AIModels × Bool)) (m : AIModels) : Bool :=
  (table.lookup m).getD false

/-- `is_provider_available` of `src/core/enums.py`:
`PROVIDER_AVAILABILITY.get(model_name, False)`. -/
def is_provider_available (model_name : AIModels) : Bool :=
  dictGetFalse PROVIDER_AVAILABILITY model_name

/-- The body of the `/ai/provider-availability` endpoint of `src/api/chat.py`:
`{model.value: PROVIDER_AVAILABILITY.get(model, False) for model in AIModels}`. -/
def get_provider_availability : List (String × Bool) :=
  AIModels.all.map (fun m => (m.value, dictGetFalse PROVIDER_AVAILABILITY m))

/-- The configuration fields of `src/core/config.py` used by the chat pipeline.
Defaults there: `AI_USAGE_LIMIT = 10`, `RATE_LIMIT_WINDOW = 60`. -/
structure Settings where
  AI_USAGE_LIMIT : Int
  RATE_LIMIT_WINDOW : Int
deriving DecidableEq, Repr

/-- Modelled from the spec: `src/models/user.py` is not in the source tree; the
fields are those the in-tree code reads and writes (`id`, `ai_requests_count`,
`is_unlimited`), matching the User record of the spec (identity, usage counter,
unlimited flag). -/
structure User where
  id : Nat
  ai_requests_count : Int
  is_unlimited : Bool
deriving DecidableEq, Repr

/-- Modelled from the spec: `src/models/chat_history.py` is not in the source
tree; the fields are those the in-tree code constructs and reads. `created_at`
is stored here already serialized to its ISO-8601 string (the endpoint sends
`chat_record.created_at.isoformat()`). -/
structure ChatHistory where
  user_id : Nat
  prompt : String
  response : String
  model_name : AIModels
  created_at : String
deriving DecidableEq, Repr

/-- Modelled from the spec: `src/schemas/chat_schema.py` is not in the source
tree; the inbound message schema is `{provider, prompt}` (keys `model_name` and
`prompt` in the code and its tests). -/
structure WebSocketMessage where
  model_name : AIModels
  prompt : String
deriving DecidableEq, Repr

/-- A JSON scalar appearing in an outbound frame. -/
inductive JValue
  | str (s : String)
  | int (n : Int)
deriving DecidableEq, Repr

/-- An outbound WebSocket frame: the JSON object passed to `websocket.send_json`,
as an ordered list of key/value pairs. -/
abbrev Frame := List (String × JValue)

/-- An outbound error frame `{"error": msg}`. -/
def errorFrame (msg : String) : Frame := [("error", .str msg)]

/-- `check_usage_limit` of `src/repositories/chat_repository.py`. -/
def check_usage_limit (settings : Settings) (user : User) : Bool × Int :=
  if user.is_unlimited then
    (true, -1)
  else
    let remaining := max 0 (settings.AI_USAGE_LIMIT - user.ai_requests_count)
    if remaining = 0 then
      (false, 0)
    else
      (true, remaining)

/-- The committed database state visible to the chat pipeline of one user: the
chat history log and the row of that user. -/
structure DBState where
  chats : List ChatHistory
  user : User
deriving DecidableEq, Repr

/-- The observable outcome of one `generate_model_response` call: the frames it
sent over the WebSocket, its `(chat, remaining)` return value, the committed
database state afterwards, and which collaborators it invoked. -/
structure GenResult where
  frames : List Frame
  chat : Option ChatHistory
  remaining : Option Int
  db : DBState
  quotaChecked : Bool
  platformResolved : Bool
  dispatched : Bool
deriving DecidableEq, Repr

/-- `generate_model_response` of `src/repositories/chat_repository.py`.
`platformChat` is the external AI client (`get_ai_platform(...).chat`), an
`Except` carrying the exception message on failure; `commit` is the outcome of
`db.commit()`; `now` is the ISO timestamp the new `ChatHistory` row receives.
On commit failure `db.rollback()` discards both the appended row and the
incremented counter, so the returned `db` is the input state. -/
def generate_model_response (settings : Settings)
    (platformChat : AIModels → String → Except String String)
    (commit : Except String Unit) (now : String)
    (data : WebSocketMessage) (current_user : User) (db : DBState) : GenResult :=
  if !(is_provider_available data.model_name) then
    { frames := [errorFrame "This AI provider is currently unavailable due to free-tier limits."],
      chat := none, remaining := none, db := db,
      quotaChecked := false, platformResolved := false, dispatched := false }
  else if !(check_usage_limit settings current_user).1 then
    { frames := [errorFrame ("AI usage limit reached. You have used all "
                   ++ toString settings.AI_USAGE_LIMIT ++ " free messages.")],
      chat := none, remaining := none, db := db,
      quotaChecked := true, platformResolved := false, dispatched := false }
  else
    match platformChat data.model_name data.prompt with
    | .error e =>
      { frames := [errorFrame ("AI platform error: " ++ e)],
        chat := none, remaining := none, db := db,
        quotaChecked := true, platformResolved := true, dispatched := true }
    | .ok response_text =>
      let chatRow : ChatHistory :=
        { user_id := current_user.id, prompt := data.prompt,
          response := response_text, model_name := data.model_name,
          created_at := now }
      let newCount : Int :=
        if !current_user.is_unlimited then current_user.ai_requests_count + 1
        else current_user.ai_requests_count
      match commit with
      | .error e =>
        { frames := [errorFrame ("Database error: " ++ e)],
          chat := none, remaining := none, db := db,
          quotaChecked := true, platformResolved := true, dispatched := true }
      | .ok _ =>
        let refreshedUser : User := { current_user with ai_requests_count := newCount }
        let finalRemaining : Int :=
          if refreshedUser.is_unlimited then -1
          else max 0 (settings.AI_USAGE_LIMIT - refreshedUser.ai_requests_count)
        { frames := [],
          chat := some chatRow, remaining := some finalRemaining,
          db := { chats := db.chats ++ [chatRow], user := refreshedUser },
          quotaChecked := true, platformResolved := true, dispatched := true }

/-- A FastAPI `HTTPException`: status code and detail string. -/
structure HTTPError where
  status_code : Nat
  detail : String
deriving DecidableEq, Repr

/-- The observable outcome of one HTTP-mirror `chat` call: the returned
`(response_text, final_remaining)` or the raised `HTTPException`, the committed
database state, and which collaborators were invoked. -/
structure ChatHTTPResult where
  result : Except HTTPError (String × Int)
  db : DBState
  quotaChecked : Bool
  platformResolved : Bool
  dispatched : Bool
deriving Repr

/-- The HTTP-mirror `chat` of `src/repositories/chat_repository.py`
("old non-real-time chat code"): identical pipeline to
`generate_model_response`, raising `HTTPException` instead of sending frames. -/
def chat (settings : Settings)
    (platformChat : AIModels → String → Except String String)
    (commit : Except String Unit) (now : String)
    (data : WebSocketMessage) (current_user : User) (db : DBState) : ChatHTTPResult :=
  if !(is_provider_available data.model_name) then
    { result := .error ⟨403, "This AI provider is currently unavailable due to free-tier limits."⟩,
      db := db, quotaChecked := false, platformResolved := false, dispatched := false }
  else if !(check_usage_limit settings current_user).1 then
    { result := .error ⟨403, "AI usage limit reached. You have used all "
                  ++ toString settings.AI_USAGE_LIMIT ++ " free messages."⟩,
      db := db, quotaChecked := true, platformResolved := false, dispatched := false }
  else
    match platformChat data.model_name data.prompt with
    | .error e =>
      { result := .error ⟨500, "AI platform error: " ++ e⟩,
        db := db, quotaChecked := true, platformResolved := true, dispatched := true }
    | .ok response_text =>
      let chatRow : ChatHistory :=
        { user_id := current_user.id, prompt := data.prompt,
          response := response_text, model_name := data.model_name,
          created_at := now }
      let newCount : Int :=
        if !current_user.is_unlimited then current_user.ai_requests_count + 1
        else current_user.ai_requests_count
      match commit with
      | .error e =>
        { result := .error ⟨500, "Database error: " ++ e⟩,
          db := db, quotaChecked := true, platformResolved := true, dispatched := true }
      | .ok _ =>
        let refreshedUser : User := { current_user with ai_requests_count := newCount }
        let finalRemaining : Int :=
          if refreshedUser.is_unlimited then -1
          else max 0 (settings.AI_USAGE_LIMIT - refreshedUser.ai_requests_count)
        { result := .ok (response_text, finalRemaining),
          db := { chats := db.chats ++ [chatRow], user := refreshedUser },
          quotaChecked := true, platformResolved := true, dispatched := true }

/-- An inbound payload that `websocket.receive_json()` already decoded from
JSON: either it validates structurally to a `WebSocketMessage`, or it is a
decoded JSON value of the wrong shape (carrying a description of why).
Text frames that are not valid JSON never reach this classification — they
make `receive_json` itself raise, which is modelled at the `Received` layer
below, where that call happens in `src/api/chat.py`. -/
inductive RawMsg
  | valid (data : WebSocketMessage)
  | malformed (desc : String)
deriving DecidableEq, Repr

/-- Modelled from the spec: `parse_ws_message` lives in `src/core/helpers.py`,
which is not in the source tree. It receives the payload `receive_json` already
decoded, and structurally validates it against the `{provider, prompt}` schema;
per the spec, on validation failure it emits a structured error to the client
and returns a falsy value, so the loop continues. Returns the parsed message
(or `none`) together with the error frame emitted on failure; the exact error
text is not fixed by the spec. -/
def parse_ws_message : RawMsg → Option WebSocketMessage × List Frame
  | .valid data => (some data, [])
  | .malformed desc => (none, [errorFrame ("Invalid message: " ++ desc)])

/-- One inbound message together with the per-message outcomes of the external
collaborators consulted while handling it: whether the shared rate limiter
raised for it, the outcome of `db.commit()`, and the timestamp assigned to a
created `ChatHistory` row. -/
structure Inbound where
  raw : RawMsg
  rateLimited : Bool
  commit : Except String Unit
  now : String
deriving Repr

/-- One iteration of the message-loop body of `websocket_endpoint` in
`src/api/chat.py`, starting after `receive_json` has successfully decoded a
JSON payload: structural validation via `parse_ws_message`, rate-limit gate,
fresh user fetch from the store, `process_ai_request` (which runs
`generate_model_response`; its wrapper in the absent `src/core/helpers.py` is
modelled from the spec as invoking the same exchange pipeline), then the
success payload. Returns the resulting store, the frames sent, and whether the
body left the loop (closed the connection). -/
def wsLoopStep (settings : Settings)
    (platformChat : AIModels → String → Except String String)
    (store : DBState) (msg : Inbound) : DBState × List Frame × Bool :=
  match parse_ws_message msg.raw with
  | (none, parseFrames) => (store, parseFrames, false)
  | (some data, _) =>
    if msg.rateLimited then
      (store, [errorFrame ("You have exceeded the rate limit. Please try again after "
                 ++ toString settings.RATE_LIMIT_WINDOW ++ " seconds.")], false)
    else
      let current_user := store.user
      let r := generate_model_response settings platformChat msg.commit msg.now
                 data current_user store
      match r.chat with
      | none => (r.db, r.frames, false)
      | some chatRow =>
        let refreshed := r.db.user
        let remaining_requests : Int :=
          match r.remaining with
          | some v => v
          | none =>
            if !refreshed.is_unlimited then
              max 0 (settings.AI_USAGE_LIMIT - refreshed.ai_requests_count)
            else -1
        let payload : Frame :=
          [("prompt", .str chatRow.prompt),
           ("response", .str chatRow.response),
           ("created_at", .str chatRow.created_at),
           ("model_name", .str chatRow.model_name.value),
           ("remaining_requests", .int remaining_requests)]
        (r.db, r.frames ++ [payload], false)

/-- One frame as it arrives from the transport, at the point where
`websocket_endpoint` calls `await websocket.receive_json()`: either the frame
text is not valid JSON — `receive_json` raises `json.JSONDecodeError` — or it
decodes to a payload handled by the loop body. -/
inductive Received
  | notJson (desc : String)
  | decoded (msg : Inbound)
deriving Repr

/-- The message loop of `websocket_endpoint` over a finite inbound sequence.
A frame that is not valid JSON makes `receive_json` raise; nothing in the loop
catches that, so the outer `except Exception` handler of
`websocket_endpoint` closes the connection with `WS_1011_INTERNAL_ERROR`
without emitting any error frame, and the remaining inbound frames are never
processed. A decoded payload runs the loop body `wsLoopStep` (whose own close
path uses `WS_1008_POLICY_VIOLATION`). Returns the final store, all frames
sent in order, and the close code (`none` while the connection stays open). -/
def wsLoop (settings : Settings)
    (platformChat : AIModels → String → Except String String)
    (store : DBState) : List Received → DBState × List Frame × Option Nat
  | [] => (store, [], none)
  | .notJson _ :: _ => (store, [], some 1011)
  | .decoded msg :: rest =>
    let (store1, frames1, closed) := wsLoopStep settings platformChat store msg
    if closed then
      (store1, frames1, some 1008)
    else
      let (store2, frames2, code) := wsLoop settings platformChat store1 rest
      (store2, frames1 ++ frames2, code)

/-- Two exchanges for the same user run serially (the fresh user
fetch of each handler sees the increment committed by the other, as when the second message arrives
after the first response): the second call reads `store1.user`. -/
def serialTwoExchanges (settings : Settings)
    (platformChat : AIModels → String → Except String String)
    (nowA nowB : String) (dataA dataB : WebSocketMessage)
    (store0 : DBState) : GenResult × GenResult :=
  let rA := generate_model_response settings platformChat (.ok ()) nowA dataA
              store0.user store0
  let rB := generate_model_response settings platformChat (.ok ()) nowB dataB
              rA.db.user rA.db
  (rA, rB)

/-- Two exchanges for the same user on two connections, interleaved so that both
handlers perform their fresh user fetch before either commits. Each handler then
runs the in-tree pipeline on its snapshot: the quota check reads the counter of
the snapshot, and the commit writes the incremented snapshot value into the store
(the ORM UPDATE writes the value computed from the in-memory row — a plain
read-modify-write, with no atomic increment or row lock in the source). -/
def staleReadTwoExchanges (settings : Settings)
    (platformChat : AIModels → String → Except String String)
    (nowA nowB : String) (dataA dataB : WebSocketMessage)
    (store0 : DBState) : GenResult × GenResult :=
  let snapA := store0.user
  let snapB := store0.user
  let rA := generate_model_response settings platformChat (.ok ()) nowA dataA snapA store0
  let rB := generate_model_response settings platformChat (.ok ()) nowB dataB snapB rA.db
  (rA, rB)

/-- A list never equals itself with one more element appended. -/
theorem selfNeAppendSingleton {α : Type} (l : List α) (c : α) : l ≠ l ++ [c] := by
  intro h
  have hlen := congrArg List.length h
  simp at hlen

/-- C2: `check_usage_limit` returns `(true, -1)` whenever the user is unlimited,
regardless of the counter; otherwise with `remaining = max 0 (LIMIT - usage_count)`
it returns `(false, 0)` when `remaining = 0` and `(true, remaining)` when
`remaining > 0`; and it is a pure function of `(usage_count, is_unlimited, LIMIT)`
(two users agreeing on those fields get the same decision; side effects cannot
occur in this embedding, matching the Python body, which only reads its inputs). -/
theorem C2_check_usage_limit_pure_decision (settings : Settings) (user : User) :
    (user.is_unlimited = true → check_usage_limit settings user = (true, -1)) ∧
    (user.is_unlimited = false →
      (max 0 (settings.AI_USAGE_LIMIT - user.ai_requests_count) = 0 →
        check_usage_limit settings user = (false, 0)) ∧
      (0 < max 0 (settings.AI_USAGE_LIMIT - user.ai_requests_count) →
        check_usage_limit settings user
          = (true, max 0 (settings.AI_USAGE_LIMIT - user.ai_requests_count)))) ∧
    (∀ other : User, other.ai_requests_count = user.ai_requests_count →
      other.is_unlimited = user.is_unlimited →
      check_usage_limit settings other = check_usage_limit settings user) := by
  refine ⟨fun h => by simp [check_usage_limit, h], fun h => ⟨fun h0 => ?_, fun hpos => ?_⟩, ?_⟩
  · simp [check_usage_limit, h, h0]
  · have hne : max 0 (settings.AI_USAGE_LIMIT - user.ai_requests_count) ≠ 0 := by omega
    simp [check_usage_limit, h, hne]
  · intro other h1 h2
    simp [check_usage_limit, h1, h2]

/-- Witness for C2 at concrete inputs: an unlimited user far over the limit, a
non-unlimited user exactly at the limit, and a non-unlimited user under it. -/
theorem C2_check_usage_limit_witness :
    check_usage_limit ⟨10, 60⟩ ⟨1, 99, true⟩ = (true, -1) ∧
    check_usage_limit ⟨10, 60⟩ ⟨1, 10, false⟩ = (false, 0) ∧
    check_usage_limit ⟨10, 60⟩ ⟨1, 4, false⟩ = (true, max 0 ((10 : Int) - 4)) := by
  refine ⟨(C2_check_usage_limit_pure_decision ⟨10, 60⟩ ⟨1, 99, true⟩).1 rfl, ?_, ?_⟩
  · exact ((C2_check_usage_limit_pure_decision ⟨10, 60⟩ ⟨1, 10, false⟩).2.1 rfl).1 (by decide)
  · exact ((C2_check_usage_limit_pure_decision ⟨10, 60⟩ ⟨1, 4, false⟩).2.1 rfl).2 (by decide)

/-- C10: the dictionary lookup behind `is_provider_available` is total and
returns `false` for any key absent from the table (for any table), and the
`/provider-availability` endpoint body carries an entry for every member of the
`AIModels` enumeration whose value is exactly `is_provider_available` of it. -/
theorem C10_availability_total_false_default
    (table : List (AIModels × Bool)) (m : AIModels)
    (habs : m ∉ table.map Prod.fst) :
    dictGetFalse table m = false ∧
    ((m.value, is_provider_available m) ∈ get_provider_availability) ∧
    get_provider_availability.length = AIModels.all.length := by
  refine ⟨?_, ?_, rfl⟩
  · induction table with
    | nil => rfl
    | cons p rest ih =>
      obtain ⟨k, v⟩ := p
      rw [List.map_cons, List.mem_cons] at habs
      push_neg at habs
      obtain ⟨hk, hrest⟩ := habs
      have hbeq : (m == k) = false := beq_eq_false_iff_ne.mpr hk
      simpa [dictGetFalse, List.lookup, hbeq] using ih hrest
  · cases m <;> decide

/-- Witness for C10: GEMINI is absent from a table holding only GROQ, so the
lookup defaults to `false`; and the endpoint lists GEMINI with its flag. -/
theorem C10_availability_witness :
    dictGetFalse [(.GROQ, true)] .GEMINI = false ∧
    (("gemini", is_provider_available .GEMINI) ∈ get_provider_availability) := by
  have h := C10_availability_total_false_default [(.GROQ, true)] .GEMINI (by decide)
  exact ⟨h.1, h.2.1⟩

/-- C4: whenever the requested provider has availability flag `false`, the
exchange is rejected with the availability error frame before anything else:
`check_usage_limit` is never invoked (`quotaChecked = false`), no platform
client is resolved or dispatched, no record is written and the database state
is untouched — in both `generate_model_response` and the HTTP mirror `chat`. -/
theorem C4_unavailable_rejected_before_quota (settings : Settings)
    (platformChat : AIModels → String → Except String String)
    (commit : Except String Unit) (now : String)
    (data : WebSocketMessage) (current_user : User) (db : DBState)
    (h : is_provider_available data.model_name = false) :
    generate_model_response settings platformChat commit now data current_user db =
      { frames := [errorFrame "This AI provider is currently unavailable due to free-tier limits."],
        chat := none, remaining := none, db := db,
        quotaChecked := false, platformResolved := false, dispatched := false } ∧
    chat settings platformChat commit now data current_user db =
      { result := .error ⟨403, "This AI provider is currently unavailable due to free-tier limits."⟩,
        db := db, quotaChecked := false, platformResolved := false, dispatched := false } := by
  constructor
  · simp [generate_model_response, h]
  · simp [chat, h]

/-- Witness for C4: GEMINI is marked unavailable in `PROVIDER_AVAILABILITY`. -/
theorem C4_unavailable_witness :
    (generate_model_response ⟨10, 60⟩ (fun _ _ => .ok "AI Response") (.ok ()) "t"
        ⟨.GEMINI, "Hello"⟩ ⟨1, 0, false⟩ ⟨[], ⟨1, 0, false⟩⟩).quotaChecked = false := by
  have h := C4_unavailable_rejected_before_quota ⟨10, 60⟩ (fun _ _ => .ok "AI Response")
    (.ok ()) "t" ⟨.GEMINI, "Hello"⟩ ⟨1, 0, false⟩ ⟨[], ⟨1, 0, false⟩⟩ (by decide)
  rw [h.1]

/-- C5: a non-unlimited user whose counter equals the configured limit is
rejected with exactly the quota error frame, whose text carries the configured
numeric limit; no record is written, nothing is dispatched and the database
state is untouched (stated for exchanges that reach the quota gate, i.e. whose
provider is available — an unavailable provider is rejected earlier, by C4). -/
theorem C5_quota_exhausted_rejection (settings : Settings)
    (platformChat : AIModels → String → Except String String)
    (commit : Except String Unit) (now : String)
    (data : WebSocketMessage) (current_user : User) (db : DBState)
    (hav : is_provider_available data.model_name = true)
    (hunlim : current_user.is_unlimited = false)
    (hcount : current_user.ai_requests_count = settings.AI_USAGE_LIMIT) :
    generate_model_response settings platformChat commit now data current_user db =
      { frames := [errorFrame ("AI usage limit reached. You have used all "
                     ++ toString settings.AI_USAGE_LIMIT ++ " free messages.")],
        chat := none, remaining := none, db := db,
        quotaChecked := true, platformResolved := false, dispatched := false } := by
  have hq : check_usage_limit settings current_user = (false, 0) := by
    simp [check_usage_limit, hunlim, hcount]
  simp [generate_model_response, hav, hq]

/-- Witness for C5 at the spec scenario `usage_count = 10`, `LIMIT = 10`: the
frame is literally the claimed one and the database state is unchanged. -/
theorem C5_quota_exhausted_witness :
    generate_model_response ⟨10, 60⟩ (fun _ _ => .ok "AI Response") (.ok ()) "t"
        ⟨.GROQ, "Hello"⟩ ⟨1, 10, false⟩ ⟨[], ⟨1, 10, false⟩⟩ =
      { frames := [errorFrame "AI usage limit reached. You have used all 10 free messages."],
        chat := none, remaining := none, db := ⟨[], ⟨1, 10, false⟩⟩,
        quotaChecked := true, platformResolved := false, dispatched := false } := by
  have h := C5_quota_exhausted_rejection ⟨10, 60⟩ (fun _ _ => .ok "AI Response") (.ok ()) "t"
    ⟨.GROQ, "Hello"⟩ ⟨1, 10, false⟩ ⟨[], ⟨1, 10, false⟩⟩ (by decide) rfl rfl
  exact h.trans (by decide)

/-- C3: when the provider dispatch raises with message `e`, exactly one error
frame is emitted, it carries the upstream failure message (`"AI platform
error: " ++ e`), the return value is `(None, None)`, no record is written and
the database state — including the usage counter — is unchanged. -/
theorem C3_provider_error_no_mutation (settings : Settings)
    (platformChat : AIModels → String → Except String String)
    (commit : Except String Unit) (now : String)
    (data : WebSocketMessage) (current_user : User) (db : DBState) (e : String)
    (hav : is_provider_available data.model_name = true)
    (hallowed : (check_usage_limit settings current_user).1 = true)
    (hdisp : platformChat data.model_name data.prompt = .error e) :
    generate_model_response settings platformChat commit now data current_user db =
      { frames := [errorFrame ("AI platform error: " ++ e)],
        chat := none, remaining := none, db := db,
        quotaChecked := true, platformResolved := true, dispatched := true } := by
  simp [generate_model_response, hav, hallowed, hdisp]

/-- Witness for C3 at the failure message of the unit test, "API key invalid":
the single frame, the absent record and the untouched store are all concrete. -/
theorem C3_provider_error_witness :
    generate_model_response ⟨10, 60⟩ (fun _ _ => .error "API key invalid") (.ok ()) "t"
        ⟨.GROQ, "Hello, AI!"⟩ ⟨1, 0, false⟩ ⟨[], ⟨1, 0, false⟩⟩ =
      { frames := [errorFrame "AI platform error: API key invalid"],
        chat := none, remaining := none, db := ⟨[], ⟨1, 0, false⟩⟩,
        quotaChecked := true, platformResolved := true, dispatched := true } := by
  have h := C3_provider_error_no_mutation ⟨10, 60⟩ (fun _ _ => .error "API key invalid")
    (.ok ()) "t" ⟨.GROQ, "Hello, AI!"⟩ ⟨1, 0, false⟩ ⟨[], ⟨1, 0, false⟩⟩ "API key invalid"
    (by decide) (by decide) rfl
  exact h.trans (by decide)

/-- C7 fails on the code: with `LIMIT = 10`, `usage_count = 5`, not unlimited
and a successful dispatch, the emitted remaining figure is `4` (the counter
becomes `6` and `max 0 (10 - 6) = 4`), not `3` as the claim states. -/
theorem C7_counterexample_remaining_is_four_not_three :
    (generate_model_response ⟨10, 60⟩ (fun _ _ => .ok "AI Response") (.ok ()) "t"
        ⟨.GROQ, "Hi"⟩ ⟨1, 5, false⟩ ⟨[], ⟨1, 5, false⟩⟩).remaining = some 4 ∧
    some (4 : Int) ≠ some (3 : Int) := by
  decide

/-- C7 amended: with `LIMIT = 10`, a user with `usage_count = 5` and
`unlimited = false` whose provider dispatch succeeds (and whose commit goes
through) gets a success result carrying `remaining = 4 = 10 - 6`. -/
theorem C7_success_remaining_is_four (settings : Settings)
    (platformChat : AIModels → String → Except String String) (now : String)
    (data : WebSocketMessage) (current_user : User) (db : DBState) (resp : String)
    (hlim : settings.AI_USAGE_LIMIT = 10)
    (hav : is_provider_available data.model_name = true)
    (hunlim : current_user.is_unlimited = false)
    (hcount : current_user.ai_requests_count = 5)
    (hdisp : platformChat data.model_name data.prompt = .ok resp) :
    (generate_model_response settings platformChat (.ok ()) now data current_user db).remaining
      = some 4 := by
  have hq : (check_usage_limit settings current_user).1 = true := by
    simp [check_usage_limit, hunlim, hcount, hlim]
  simp [generate_model_response, hav, hq, hdisp, hunlim, hcount, hlim]

/-- Witness for the amended C7, at the concrete scenario of the spec (provider
GROQ mocked to return "AI Response"). -/
theorem C7_success_remaining_witness :
    (generate_model_response ⟨10, 60⟩ (fun _ _ => .ok "AI Response") (.ok ()) "t"
        ⟨.GROQ, "Hi"⟩ ⟨1, 5, false⟩ ⟨[], ⟨1, 5, false⟩⟩).remaining = some 4 :=
  C7_success_remaining_is_four ⟨10, 60⟩ (fun _ _ => .ok "AI Response") "t"
    ⟨.GROQ, "Hi"⟩ ⟨1, 5, false⟩ ⟨[], ⟨1, 5, false⟩⟩ "AI Response"
    rfl (by decide) rfl rfl rfl

/-- C1: for both `generate_model_response` and the HTTP mirror `chat`, run on
the freshly fetched user row of the store: a ChatHistory record is appended to
the committed state iff the provider was available, the quota check admitted
the user, the dispatch succeeded and the commit succeeded (on commit failure
everything is rolled back, per the rollback clause of the claim); the counter
is incremented by exactly 1 iff a record was appended and the user is not
unlimited; when nothing is appended the whole database state is exactly the
input state; and an append for an unlimited user leaves the user row unchanged
— so no partial state (record without increment for a limited user, or
increment without record) is ever observable. -/
theorem C1_record_and_increment_atomic (settings : Settings)
    (platformChat : AIModels → String → Except String String)
    (commit : Except String Unit) (now : String)
    (data : WebSocketMessage) (db : DBState) :
    ((∃ c, (generate_model_response settings platformChat commit now data db.user db).db.chats
          = db.chats ++ [c]) ↔
        (is_provider_available data.model_name = true ∧
         (check_usage_limit settings db.user).1 = true ∧
         (platformChat data.model_name data.prompt).isOk = true ∧
         commit.isOk = true)) ∧
    ((generate_model_response settings platformChat commit now data db.user db).db.user.ai_requests_count
        = db.user.ai_requests_count + 1 ↔
      ((∃ c, (generate_model_response settings platformChat commit now data db.user db).db.chats
            = db.chats ++ [c]) ∧ db.user.is_unlimited = false)) ∧
    (¬ (∃ c, (generate_model_response settings platformChat commit now data db.user db).db.chats
          = db.chats ++ [c]) →
      (generate_model_response settings platformChat commit now data db.user db).db = db) ∧
    (db.user.is_unlimited = true →
      (generate_model_response settings platformChat commit now data db.user db).db.user
        = db.user) ∧
    ((∃ c, (chat settings platformChat commit now data db.user db).db.chats
          = db.chats ++ [c]) ↔
        (is_provider_available data.model_name = true ∧
         (check_usage_limit settings db.user).1 = true ∧
         (platformChat data.model_name data.prompt).isOk = true ∧
         commit.isOk = true)) ∧
    ((chat settings platformChat commit now data db.user db).db.user.ai_requests_count
        = db.user.ai_requests_count + 1 ↔
      ((∃ c, (chat settings platformChat commit now data db.user db).db.chats
            = db.chats ++ [c]) ∧ db.user.is_unlimited = false)) ∧
    (¬ (∃ c, (chat settings platformChat commit now data db.user db).db.chats
          = db.chats ++ [c]) →
      (chat settings platformChat commit now data db.user db).db = db) := by
  cases hav : is_provider_available data.model_name <;>
    cases hq : (check_usage_limit settings db.user).1 <;>
    cases hpc : platformChat data.model_name data.prompt <;>
    cases hcom : commit <;>
    cases hunlim : db.user.is_unlimited <;>
    simp [generate_model_response, chat, hav, hq, hpc, hcom, hunlim, Except.isOk,
      Except.toBool, selfNeAppendSingleton] <;>
    first
    | omega
    | rw [← hunlim]

/-- Witness for C1: a concrete successful exchange (available provider,
admitted quota, successful dispatch and commit) appends a record, and a
concrete commit failure leaves the committed state untouched. -/
theorem C1_record_and_increment_witness :
    (∃ c, (generate_model_response ⟨10, 60⟩ (fun _ _ => .ok "AI Response") (.ok ()) "t"
        ⟨.GROQ, "Hi"⟩ ⟨1, 5, false⟩ ⟨[], ⟨1, 5, false⟩⟩).db.chats = [] ++ [c]) ∧
    (generate_model_response ⟨10, 60⟩ (fun _ _ => .ok "AI Response")
        (.error "disk full") "t" ⟨.GROQ, "Hi"⟩ ⟨1, 5, false⟩
        ⟨[], ⟨1, 5, false⟩⟩).db = ⟨[], ⟨1, 5, false⟩⟩ := by
  constructor
  · exact (C1_record_and_increment_atomic ⟨10, 60⟩ (fun _ _ => .ok "AI Response")
      (.ok ()) "t" ⟨.GROQ, "Hi"⟩ ⟨[], ⟨1, 5, false⟩⟩).1.mpr (by decide)
  · refine (C1_record_and_increment_atomic ⟨10, 60⟩ (fun _ _ => .ok "AI Response")
      (.error "disk full") "t" ⟨.GROQ, "Hi"⟩ ⟨[], ⟨1, 5, false⟩⟩).2.2.1 ?_
    intro h
    have := (C1_record_and_increment_atomic ⟨10, 60⟩ (fun _ _ => .ok "AI Response")
      (.error "disk full") "t" ⟨.GROQ, "Hi"⟩ ⟨[], ⟨1, 5, false⟩⟩).1.mp h
    simp [Except.isOk, Except.toBool] at this

/-- C6 fails on the code: at a concrete successful exchange the outbound
success frame has exactly the keys `prompt`, `response`, `created_at`,
`model_name`, `remaining_requests` — not the claimed `provider` and
`remaining` names. -/
theorem C6_counterexample_frame_keys :
    ((wsLoopStep ⟨10, 60⟩ (fun _ _ => .ok "AI Response") ⟨[], ⟨1, 0, false⟩⟩
        ⟨.valid ⟨.GROQ, "Hello AI"⟩, false, .ok (), "2024-01-01T00:00:00"⟩).2.1.map
        (fun f => f.map Prod.fst)
      = [["prompt", "response", "created_at", "model_name", "remaining_requests"]]) ∧
    ¬ ((wsLoopStep ⟨10, 60⟩ (fun _ _ => .ok "AI Response") ⟨[], ⟨1, 0, false⟩⟩
        ⟨.valid ⟨.GROQ, "Hello AI"⟩, false, .ok (), "2024-01-01T00:00:00"⟩).2.1.map
        (fun f => f.map Prod.fst)
      = [["prompt", "response", "created_at", "provider", "remaining"]]) := by
  decide

/-- C6 amended: every successful exchange emits exactly one success frame with
exactly the fields `prompt` (string), `response` (string), `created_at`
(ISO-8601 string), `model_name` (enum string) and `remaining_requests`
(integer), where `remaining_requests` is `-1` for unlimited users. -/
theorem C6_success_frame_fields (settings : Settings)
    (platformChat : AIModels → String → Except String String)
    (store : DBState) (msg : Inbound) (data : WebSocketMessage) (resp : String)
    (hraw : msg.raw = .valid data)
    (hrl : msg.rateLimited = false)
    (hav : is_provider_available data.model_name = true)
    (hq : (check_usage_limit settings store.user).1 = true)
    (hdisp : platformChat data.model_name data.prompt = .ok resp)
    (hcom : msg.commit = .ok ()) :
    wsLoopStep settings platformChat store msg =
      ({ chats := store.chats ++
            [{ user_id := store.user.id, prompt := data.prompt, response := resp,
               model_name := data.model_name, created_at := msg.now }],
         user := { store.user with ai_requests_count :=
            if store.user.is_unlimited then store.user.ai_requests_count
            else store.user.ai_requests_count + 1 } },
       [[("prompt", .str data.prompt), ("response", .str resp),
         ("created_at", .str msg.now), ("model_name", .str data.model_name.value),
         ("remaining_requests", .int (if store.user.is_unlimited then -1
            else max 0 (settings.AI_USAGE_LIMIT - (store.user.ai_requests_count + 1))))]],
       false) ∧
    (store.user.is_unlimited = true →
      (wsLoopStep settings platformChat store msg).2.1.map (fun f => f.map Prod.snd)
        = [[.str data.prompt, .str resp, .str msg.now, .str data.model_name.value,
            .int (-1)]]) := by
  cases hunlim : store.user.is_unlimited <;>
    simp [wsLoopStep, parse_ws_message, generate_model_response, hraw, hrl, hav, hq,
      hdisp, hcom, hunlim]

/-- Witness for the amended C6 at a concrete exchange of an unlimited user:
the frame carries the five actual field names and `remaining_requests = -1`. -/
theorem C6_success_frame_witness :
    wsLoopStep ⟨10, 60⟩ (fun _ _ => .ok "AI Response") ⟨[], ⟨1, 50, true⟩⟩
        ⟨.valid ⟨.GROQ, "Hello AI"⟩, false, .ok (), "2024-01-01T00:00:00"⟩ =
      (⟨[⟨1, "Hello AI", "AI Response", .GROQ, "2024-01-01T00:00:00"⟩], ⟨1, 50, true⟩⟩,
       [[("prompt", .str "Hello AI"), ("response", .str "AI Response"),
         ("created_at", .str "2024-01-01T00:00:00"), ("model_name", .str "groq"),
         ("remaining_requests", .int (-1))]],
       false) := by
  have h := C6_success_frame_fields ⟨10, 60⟩ (fun _ _ => .ok "AI Response")
    ⟨[], ⟨1, 50, true⟩⟩ ⟨.valid ⟨.GROQ, "Hello AI"⟩, false, .ok (), "2024-01-01T00:00:00"⟩
    ⟨.GROQ, "Hello AI"⟩ "AI Response" rfl rfl (by decide) (by decide) rfl rfl
  exact h.1.trans (by decide)

/-- C8 fails on the code for the parse-failure class it includes: a frame
whose text is not valid JSON makes `websocket.receive_json()` raise (line 63
of `src/api/chat.py`), nothing in the loop catches that, and the outer
`except Exception` handler (lines 105-110) closes the connection with code
1011 and emits no structured error — here concretely, with a perfectly
well-formed message queued right behind the bad frame that is never processed. -/
theorem C8_counterexample_invalid_json_closes :
    wsLoop ⟨10, 60⟩ (fun _ _ => .ok "AI Response") ⟨[], ⟨1, 0, false⟩⟩
        [.notJson "not valid json",
         .decoded ⟨.valid ⟨.GROQ, "Hello AI"⟩, false, .ok (), "t1"⟩]
      = (⟨[], ⟨1, 0, false⟩⟩, [], some 1011) ∧
    some (1011 : Nat) ≠ (none : Option Nat) := by
  decide

/-- C8 amended: an inbound payload that decodes as JSON but fails structural
validation makes the session emit a structured error frame and stay in the
message loop (the body does not close the connection and leaves the store
untouched); the loop continues into the remaining messages; and a subsequent
well-formed message on the same connection is still processed to a success
frame, the connection still open at the end. A frame that is not valid JSON
instead raises in `receive_json` and the connection is closed with code 1011,
per the counterexample. -/
theorem C8_schema_invalid_never_closes (settings : Settings)
    (platformChat : AIModels → String → Except String String)
    (store : DBState) (d : String) (m1 m2 : Inbound) (rest : List Received)
    (data : WebSocketMessage) (resp : String)
    (h1 : m1.raw = .malformed d)
    (h2 : m2.raw = .valid data) (h2r : m2.rateLimited = false)
    (hav : is_provider_available data.model_name = true)
    (hq : (check_usage_limit settings store.user).1 = true)
    (hdisp : platformChat data.model_name data.prompt = .ok resp)
    (hcom : m2.commit = .ok ()) :
    wsLoopStep settings platformChat store m1
      = (store, [errorFrame ("Invalid message: " ++ d)], false) ∧
    wsLoop settings platformChat store (.decoded m1 :: rest) =
      ((wsLoop settings platformChat store rest).1,
       errorFrame ("Invalid message: " ++ d) :: (wsLoop settings platformChat store rest).2.1,
       (wsLoop settings platformChat store rest).2.2) ∧
    (wsLoop settings platformChat store [.decoded m1, .decoded m2]).2.2 = none ∧
    (wsLoop settings platformChat store [.decoded m1, .decoded m2]).2.1 =
      [errorFrame ("Invalid message: " ++ d),
       [("prompt", .str data.prompt), ("response", .str resp),
        ("created_at", .str m2.now), ("model_name", .str data.model_name.value),
        ("remaining_requests", .int (if store.user.is_unlimited then -1
           else max 0 (settings.AI_USAGE_LIMIT - (store.user.ai_requests_count + 1))))]] := by
  rcases hk : wsLoop settings platformChat store rest with ⟨s2, f2, c2⟩
  cases hunlim : store.user.is_unlimited <;>
    simp [wsLoop, wsLoopStep, parse_ws_message, generate_model_response, h1, h2, h2r,
      hav, hq, hdisp, hcom, hunlim, hk]

/-- Witness for the amended C8 at a concrete two-message session: a decoded
payload failing structural validation, then a valid GROQ prompt that still
succeeds, with the connection left open. -/
theorem C8_schema_invalid_witness :
    wsLoopStep ⟨10, 60⟩ (fun _ _ => .ok "AI Response") ⟨[], ⟨1, 0, false⟩⟩
        ⟨.malformed "missing prompt", false, .ok (), "t0"⟩
      = (⟨[], ⟨1, 0, false⟩⟩, [errorFrame "Invalid message: missing prompt"], false) ∧
    (wsLoop ⟨10, 60⟩ (fun _ _ => .ok "AI Response") ⟨[], ⟨1, 0, false⟩⟩
        [.decoded ⟨.malformed "missing prompt", false, .ok (), "t0"⟩,
         .decoded ⟨.valid ⟨.GROQ, "Hello AI"⟩, false, .ok (), "t1"⟩]).2.2 = none ∧
    (wsLoop ⟨10, 60⟩ (fun _ _ => .ok "AI Response") ⟨[], ⟨1, 0, false⟩⟩
        [.decoded ⟨.malformed "missing prompt", false, .ok (), "t0"⟩,
         .decoded ⟨.valid ⟨.GROQ, "Hello AI"⟩, false, .ok (), "t1"⟩]).2.1 =
      [errorFrame "Invalid message: missing prompt",
       [("prompt", .str "Hello AI"), ("response", .str "AI Response"),
        ("created_at", .str "t1"), ("model_name", .str "groq"),
        ("remaining_requests", .int 9)]] := by
  have h := C8_schema_invalid_never_closes ⟨10, 60⟩ (fun _ _ => .ok "AI Response")
    ⟨[], ⟨1, 0, false⟩⟩ "missing prompt" ⟨.malformed "missing prompt", false, .ok (), "t0"⟩
    ⟨.valid ⟨.GROQ, "Hello AI"⟩, false, .ok (), "t1"⟩ []
    ⟨.GROQ, "Hello AI"⟩ "AI Response" rfl rfl rfl (by decide) (by decide) rfl rfl
  exact ⟨h.1, h.2.2.1, h.2.2.2.trans (by decide)⟩

/-- C9 fails on the code: the counter update is a plain read-modify-write with
no atomic increment or row lock, so in the interleaving where both connections
fetch the user at `usage_count = LIMIT - 1 = 9` before either commits, both
exchanges succeed, two records are appended, and the committed counter ends at
`LIMIT = 10` (one increment lost) — not "exactly one succeeds". -/
theorem C9_counterexample_lost_update :
    ((staleReadTwoExchanges ⟨10, 60⟩ (fun _ _ => .ok "AI Response") "tA" "tB"
        ⟨.GROQ, "a"⟩ ⟨.GROQ, "b"⟩ ⟨[], ⟨1, 9, false⟩⟩).1.chat.isSome = true) ∧
    ((staleReadTwoExchanges ⟨10, 60⟩ (fun _ _ => .ok "AI Response") "tA" "tB"
        ⟨.GROQ, "a"⟩ ⟨.GROQ, "b"⟩ ⟨[], ⟨1, 9, false⟩⟩).2.chat.isSome = true) ∧
    ((staleReadTwoExchanges ⟨10, 60⟩ (fun _ _ => .ok "AI Response") "tA" "tB"
        ⟨.GROQ, "a"⟩ ⟨.GROQ, "b"⟩ ⟨[], ⟨1, 9, false⟩⟩).2.db.user.ai_requests_count = 10) ∧
    ((staleReadTwoExchanges ⟨10, 60⟩ (fun _ _ => .ok "AI Response") "tA" "tB"
        ⟨.GROQ, "a"⟩ ⟨.GROQ, "b"⟩ ⟨[], ⟨1, 9, false⟩⟩).2.db.chats.length = 2) := by
  decide

/-- C9 amended: when the two exchanges for a non-unlimited user at
`usage_count = LIMIT - 1` run serially — the second one performing its fresh
user fetch after the first one commits — exactly one succeeds and increments
the counter to `LIMIT`, and the other is rejected with the quota-exceeded
error, leaving the store as the first exchange committed it. The no-lost-update
guarantee for the genuinely interleaved case does not hold of the code. -/
theorem C9_serial_exactly_one_succeeds (settings : Settings)
    (platformChat : AIModels → String → Except String String)
    (nowA nowB : String) (dataA dataB : WebSocketMessage)
    (store0 : DBState) (respA : String)
    (hunlim : store0.user.is_unlimited = false)
    (hcount : store0.user.ai_requests_count = settings.AI_USAGE_LIMIT - 1)
    (havA : is_provider_available dataA.model_name = true)
    (havB : is_provider_available dataB.model_name = true)
    (hdispA : platformChat dataA.model_name dataA.prompt = .ok respA) :
    ((serialTwoExchanges settings platformChat nowA nowB dataA dataB store0).1.chat.isSome
      = true) ∧
    ((serialTwoExchanges settings platformChat nowA nowB dataA dataB store0).1.db.user.ai_requests_count
      = settings.AI_USAGE_LIMIT) ∧
    ((serialTwoExchanges settings platformChat nowA nowB dataA dataB store0).2.chat = none) ∧
    ((serialTwoExchanges settings platformChat nowA nowB dataA dataB store0).2.frames
      = [errorFrame ("AI usage limit reached. You have used all "
          ++ toString settings.AI_USAGE_LIMIT ++ " free messages.")]) ∧
    ((serialTwoExchanges settings platformChat nowA nowB dataA dataB store0).2.db
      = (serialTwoExchanges settings platformChat nowA nowB dataA dataB store0).1.db) := by
  have h1 : max 0 (settings.AI_USAGE_LIMIT - store0.user.ai_requests_count) = (1 : Int) := by
    omega
  have h0 : max 0 (settings.AI_USAGE_LIMIT - (store0.user.ai_requests_count + 1)) = (0 : Int) := by
    omega
  refine ⟨?_, ?_, ?_, ?_, ?_⟩ <;>
    simp [serialTwoExchanges, generate_model_response, check_usage_limit,
      havA, havB, hdispA, hunlim, h1, h0] <;>
    omega

/-- Witness for the amended C9 at `LIMIT = 10`, `usage_count = 9`: the first
exchange succeeds and brings the counter to 10, the second is rejected. -/
theorem C9_serial_witness :
    ((serialTwoExchanges ⟨10, 60⟩ (fun _ _ => .ok "AI Response") "tA" "tB"
        ⟨.GROQ, "a"⟩ ⟨.GROQ, "b"⟩ ⟨[], ⟨1, 9, false⟩⟩).1.chat.isSome = true) ∧
    ((serialTwoExchanges ⟨10, 60⟩ (fun _ _ => .ok "AI Response") "tA" "tB"
        ⟨.GROQ, "a"⟩ ⟨.GROQ, "b"⟩ ⟨[], ⟨1, 9, false⟩⟩).1.db.user.ai_requests_count = 10) ∧
    ((serialTwoExchanges ⟨10, 60⟩ (fun _ _ => .ok "AI Response") "tA" "tB"
        ⟨.GROQ, "a"⟩ ⟨.GROQ, "b"⟩ ⟨[], ⟨1, 9, false⟩⟩).2.chat = none) := by
  have h := C9_serial_exactly_one_succeeds ⟨10, 60⟩ (fun _ _ => .ok "AI Response")
    "tA" "tB" ⟨.GROQ, "a"⟩ ⟨.GROQ, "b"⟩ ⟨[], ⟨1, 9, false⟩⟩ "AI Response"
    rfl rfl (by decide) (by decide) rfl
  exact ⟨h.1, h.2.1, h.2.2.1⟩

end MultiAIChat
